import Mathlib

/-!
Verification of the YM-hobby instant-messaging core: a shallow embedding of
the WebSocket security module (`backend/websocket/security.js`), the
connection registry (`registerWebSocketConnection` and friends in the
middleware), the message handler (`MessageHandler.handlePrivateMessage`,
`handleTypingIndicator`), the WebSocket server pipeline
(`SecureWebSocketServer.setupMessageHandler`, `handleMessage`,
`handleAuthentication`, `setupCloseHandler`, `notifyBuddiesStatusChange`)
and the token-blacklist module, together with theorems settling the stated
properties of these components.

JavaScript strings are embedded as Lean `String`/`List Char`; the relational
store is an explicit record of rows; every `db.query` becomes a pure read or
update of that record; a fallible insert is modelled by a flag on the store;
exceptions thrown by `ws.send` during the buddy fan-out are modelled by an
environment predicate saying which recipient's send throws.
-/

namespace YM

/-! ## JavaScript `Map` embedding (association list, insertion order kept) -/

/-- Lookup in a JS `Map`: the value stored at `k`, if any. -/
def mapGet {κ : Type} [DecidableEq κ] {α : Type} (k : κ) : List (κ × α) → Option α
  | [] => none
  | (k0, v) :: rest => if k0 = k then some v else mapGet k rest

/-- JS `Map.set`: replace the entry for `k` in place, or append a new one. -/
def mapSet {κ : Type} [DecidableEq κ] {α : Type} (k : κ) (v : α) : List (κ × α) → List (κ × α)
  | [] => [(k, v)]
  | (k0, v0) :: rest => if k0 = k then (k0, v) :: rest else (k0, v0) :: mapSet k v rest

/-- JS `Map.delete`: remove the entry for `k`, if present. -/
def mapDelete {κ : Type} [DecidableEq κ] {α : Type} (k : κ) : List (κ × α) → List (κ × α)
  | [] => []
  | (k0, v0) :: rest => if k0 = k then rest else (k0, v0) :: mapDelete k rest

/-- The keys of an association list, in order, with no duplicates: the shape
every JS `Map` keeps by construction. -/
def NodupKeys {κ : Type} {α : Type} (l : List (κ × α)) : Prop :=
  (l.map Prod.fst).Nodup

/-- Number of entries stored under key `k`. -/
def keyCount {κ : Type} [DecidableEq κ] {α : Type} (k : κ) (l : List (κ × α)) : Nat :=
  (l.filter (fun p => p.1 = k)).length

/-! ## Characters used by the security module -/

/-- The double-quote character. -/
def quoteChar : Char := Char.ofNat 34

/-- The single-quote character. -/
def aposChar : Char := Char.ofNat 39

/-- The backquote character. -/
def backquoteChar : Char := Char.ofNat 96

/-- The opening curly-bracket character. -/
def lbraceChar : Char := Char.ofNat 123

/-- The closing curly-bracket character. -/
def rbraceChar : Char := Char.ofNat 125

/-- The forward-slash character. -/
def slashChar : Char := Char.ofNat 47

/-- The ampersand character. -/
def ampChar : Char := Char.ofNat 38

/-- Whitespace in the sense of JS `String.prototype.trim` (the code points the
messages of this system can actually carry; the exotic Unicode space classes
are omitted as no claim depends on them). -/
def isJsSpace (c : Char) : Bool :=
  c = ' ' || c.toNat = 9 || c.toNat = 10 || c.toNat = 13 || c.toNat = 11 ||
  c.toNat = 12 || c.toNat = 160 || c.toNat = 65279

/-- ASCII lower-casing, for the case-insensitive regex tests. -/
def lowerChar (c : Char) : Char :=
  if 65 ≤ c.toNat ∧ c.toNat ≤ 90 then Char.ofNat (c.toNat + 32) else c

/-- A word character in the sense of the JS regex class backslash-w:
letters, digits and underscore. -/
def isWordChar (c : Char) : Bool :=
  (97 ≤ c.toNat && c.toNat ≤ 122) || (65 ≤ c.toNat && c.toNat ≤ 90) ||
  (48 ≤ c.toNat && c.toNat ≤ 57) || c = '_'

/-! ## `WebSocketSecurity.sanitizeMessageContent` -/

/-- One stage of the chained `String.prototype.replace(/c/g, r)` calls:
every occurrence of the single character `c` becomes the string `r`. -/
def replAll (c : Char) (r : List Char) : List Char → List Char
  | [] => []
  | x :: rest => if x = c then r ++ replAll c r rest else x :: replAll c r rest

/-- JS `String.prototype.trim` on a character list. -/
def trimList (l : List Char) : List Char :=
  ((l.dropWhile isJsSpace).reverse.dropWhile isJsSpace).reverse

/-- `WebSocketSecurity.sanitizeMessageContent`, character-list form: the six
chained global replacements (ampersand, angle brackets, double quote, single
quote, slash), then `trim`.  Non-string input returns the empty string in the
source; the embedding takes a string, so that branch does not arise. -/
def sanitizeList (l : List Char) : List Char :=
  trimList
    (replAll slashChar ("&#x2F;".data)
      (replAll aposChar ("&#x27;".data)
        (replAll quoteChar ("&quot;".data)
          (replAll '>' ("&gt;".data)
            (replAll '<' ("&lt;".data)
              (replAll ampChar ("&amp;".data) l))))))

/-- `WebSocketSecurity.sanitizeMessageContent` on strings. -/
def sanitizeMessageContent (s : String) : String :=
  ⟨sanitizeList s.data⟩

/-! ## `WebSocketSecurity.validateMessageContent` -/

/-- Does `l` start with `pat`? -/
def startsWithL : List Char → List Char → Bool
  | _, [] => true
  | [], _ :: _ => false
  | x :: xs, p :: ps => x = p && startsWithL xs ps

/-- Does `pat` occur as a contiguous substring of `l`? -/
def containsL (pat : List Char) : List Char → Bool
  | [] => startsWithL [] pat
  | x :: rest => startsWithL (x :: rest) pat || containsL pat rest

/-- Does the regex `on` + word-chars(≥1) + `=` match starting exactly here?
Since `=` is not a word character, the match succeeds iff after the letters
`o` `n` comes a nonempty maximal run of word characters closed by `=`. -/
def onAttrAt : List Char → Bool
  | 'o' :: 'n' :: rest =>
      let run := rest.takeWhile isWordChar
      match rest.dropWhile isWordChar with
      | '=' :: _ => !run.isEmpty
      | _ => false
  | _ => false

/-- Does `/on\w+=/i` match anywhere in the (already lower-cased) list? -/
def matchesOnAttr : List Char → Bool
  | [] => false
  | x :: rest => onAttrAt (x :: rest) || matchesOnAttr rest

/-- The fixed lower-case substrings of the dangerous-pattern regex list. -/
def dangerousNeedles : List (List Char) :=
  ["<script".data, "javascript:".data, "data:text/html".data,
   "vbscript:".data, "expression(".data, "url(javascript:".data]

/-- The character class `[<>'"`{}[\]();]` of the special-character-density
test. -/
def specialMarkChars : List Char :=
  ['<', '>', aposChar, quoteChar, backquoteChar, lbraceChar, rbraceChar,
   '[', ']', '(', ')', ';']

/-- How many characters of `l` fall in the special class. -/
def countSpecial (l : List Char) : Nat :=
  (l.filter (fun c => c ∈ specialMarkChars)).length

/-- The test `specialCharRatio > 0.3`.  In the source the ratio is
`count / length` as a float; for an empty string this is `NaN`, and
`NaN > 0.3` is `false`, hence the zero-length guard. -/
def ratioExceedsThreshold (l : List Char) : Bool :=
  if l.length = 0 then false else decide (3 * l.length < 10 * countSpecial l)

/-- `WebSocketSecurity.validateMessageContent` on character lists: no
dangerous pattern matches (case-insensitively) and the special-character
density is not above 30 %. -/
def validateContentList (l : List Char) : Bool :=
  let low := l.map lowerChar
  !(dangerousNeedles.any (fun pat => containsL pat low)) &&
  !(matchesOnAttr low) &&
  !(ratioExceedsThreshold l)

/-- `WebSocketSecurity.validateMessageContent` on strings.  The source first
rejects non-string input; the embedding takes a string, so that branch does
not arise. -/
def validateMessageContent (s : String) : Bool :=
  validateContentList s.data

/-! ## `WebSocketSecurity.validateMessageSize` and structure validation -/

/-- `MAX_MESSAGE_SIZE = 1024 * 10`. -/
def MAX_MESSAGE_SIZE : Nat := 1024 * 10

/-- `WebSocketSecurity.validateMessageSize`: the serialized byte length must
not exceed 10 KiB. -/
def validateMessageSize (byteLength : Nat) : Bool :=
  decide (byteLength ≤ MAX_MESSAGE_SIZE)

/-- An inbound wire message as the handler sees it after `JSON.parse`: each
field is `some` exactly when the corresponding property exists with the
type the structure validator tests for (`typeof type === 'string'`, `typeof
toUserId === 'number'`, `typeof message === 'string'`, `typeof token ===
'string'`).  The user-id domain of this system is the natural numbers. -/
structure WireMsg where
  type : Option String
  toUserId : Option Nat
  message : Option String
  token : Option String
deriving DecidableEq

/-- The result of `JSON.parse` when it returns: either a non-object
(number, string, boolean or `null`) or an object. -/
inductive Parsed where
  | nonObject : Parsed
  | obj : WireMsg → Parsed
deriving DecidableEq

/-- `WebSocketSecurity.validateMessageStructure`.  A non-object fails the
`typeof`/null test; an object needs a truthy string `type` (so the empty
string fails `!message.type`), and a type-specific shape. -/
def validateMessageStructure : Parsed → Bool
  | Parsed.nonObject => false
  | Parsed.obj m =>
    match m.type with
    | none => false
    | some t =>
      if t = "" then false
      else if t = "authenticate" then m.token.isSome
      else if t = "private_message" then
        m.toUserId.isSome &&
        (match m.message with
         | some body => decide (body.length ≤ 1000)
         | none => false)
      else if t = "typing_start" || t = "typing_stop" then m.toUserId.isSome
      else if t = "ping" then true
      else false

/-! ## Server state -/

/-- A WebSocket connection as the server decorates it: an identity for the
underlying socket object, the remote ip, the fields `isAuthenticated` and
`userId` set during authentication, and the transport `readyState`
(`1` is OPEN). -/
structure Conn where
  id : Nat
  ip : String
  isAuthenticated : Bool
  userId : Option Nat
  readyState : Nat
deriving DecidableEq

/-- A row of the `messages` table as the router inserts it. -/
structure MsgRow where
  id : Nat
  fromUserId : Nat
  toUserId : Nat
  message : String
  createdAt : Nat
  read : Bool
deriving DecidableEq

/-- The relational store as the core touches it: `buddies` rows
`(user_id, buddy_user_id)`, `blocks` rows `(blocker_id, blocked_id)`,
`messages`, the per-user `status` column, the id/timestamp the next insert
returns, and a flag modelling the message insert throwing (store
unavailable). -/
structure DB where
  buddies : List (Nat × Nat)
  blocks : List (Nat × Nat)
  messages : List MsgRow
  statuses : List (Nat × String)
  nextId : Nat
  insertFails : Bool
deriving DecidableEq

/-- The mutable in-memory server state: the middleware registry
`wsConnections`, the server's own `connections` map, the security module's
`userConnections` counters and `messageRates` windows, and the store. -/
structure SState where
  wsConnections : List (Nat × Conn)
  connections : List (Nat × Conn)
  userConnCounts : List (Nat × Nat)
  messageRates : List (String × List Nat)
  db : DB
deriving DecidableEq

/-- An outbound wire event (`ws.send(JSON.stringify(...))`). -/
inductive OutEvent where
  | errorReply : String → OutEvent
  | pong : OutEvent
  | authSuccess : Nat → String → OutEvent
  | authError : OutEvent
  | privateMsgOut : Nat → String → Nat → Nat → String → OutEvent
  | typingEvt : String → Nat → OutEvent
  | buddyStatusChange : Nat → String → OutEvent
deriving DecidableEq

/-- Ghost trace labels recording which stage of the inbound pipeline ran,
in order. -/
inductive Step where
  | sizeCheck : Step
  | parseStep : Step
  | structureCheck : Step
  | rateCheck : Step
  | contentCheck : Step
  | buddyCheck : Step
  | blockCheck : Step
  | persistStep : Step
  | deliverStep : Step
  | authStep : Step
deriving DecidableEq

/-- The environment a handler call runs in: the clock, the JWT verifier
(`none` models `jwt.verify` throwing or an invalid signature), and which
recipient's `ws.send` throws during the buddy fan-out. -/
structure Env where
  now : Nat
  jwtVerify : String → Option (Nat × String × String)
  sendFails : Nat → Bool

/-- The observable outcome of one handler invocation: the state after, the
(possibly mutated) receiving connection, the events sent on it, the events
sent to other users' connections, the close of the receiving connection if
any (code, reason), the ids of other connections the handler closed, and the
ghost trace. -/
structure HResult where
  st : SState
  ws : Conn
  selfEvents : List OutEvent
  otherSends : List (Nat × OutEvent)
  selfClose : Option (Nat × String)
  closedConns : List Nat
  trace : List Step
deriving DecidableEq

/-- The no-effect outcome. -/
def noopResult (st : SState) (ws : Conn) : HResult :=
  ⟨st, ws, [], [], none, [], []⟩

/-! ## Rate limiting and connection counting (`security.js`) -/

/-- `getMessageRateWindow`. -/
def getMessageRateWindow (t : String) : Nat :=
  if t = "private_message" then 60000
  else if t = "typing_start" then 10000
  else if t = "typing_stop" then 10000
  else if t = "authenticate" then 30000
  else 60000

/-- `getMessageRateLimit`. -/
def getMessageRateLimitOf (t : String) : Nat :=
  if t = "private_message" then 60
  else if t = "typing_start" then 10
  else if t = "typing_stop" then 10
  else if t = "authenticate" then 5
  else 60

/-- `checkMessageRateLimit`: drop timestamps outside the window (the JS test
`time > now - windowMs` is written additively to avoid truncated
subtraction), refuse if the window is full, otherwise record `now`. -/
def checkMessageRateLimit (ip t : String) (now : Nat)
    (rates : List (String × List Nat)) : Bool × List (String × List Nat) :=
  let key := ip ++ ":" ++ t
  let window := getMessageRateWindow t
  let maxM := getMessageRateLimitOf t
  let msgs := ((mapGet key rates).getD []).filter (fun time => now < time + window)
  if maxM ≤ msgs.length then (false, rates)
  else (true, mapSet key (msgs ++ [now]) rates)

/-- `MAX_CONNECTIONS_PER_USER = 3`. -/
def MAX_CONNECTIONS_PER_USER : Nat := 3

/-- `checkUserConnectionLimit`: refuse at the ceiling, otherwise increment
the per-user counter. -/
def checkUserConnectionLimit (userId : Nat) (counts : List (Nat × Nat)) :
    Bool × List (Nat × Nat) :=
  let current := (mapGet userId counts).getD 0
  if MAX_CONNECTIONS_PER_USER ≤ current then (false, counts)
  else (true, mapSet userId (current + 1) counts)

/-- `removeUserConnection` (defined in the security module; the server never
calls it). -/
def removeUserConnection (userId : Nat) (counts : List (Nat × Nat)) :
    List (Nat × Nat) :=
  let current := (mapGet userId counts).getD 1
  mapSet userId (current - 1) counts

/-! ## Connection registry (middleware) -/

/-- `registerWebSocketConnection`: close any existing connection of this
user, then install the new one.  Returns the new map and the ids of the
connections that were closed. -/
def registerWebSocketConnection (userId : Nat) (ws : Conn)
    (conns : List (Nat × Conn)) : List (Nat × Conn) × List Nat :=
  let closed := match mapGet userId conns with
    | some existing => [existing.id]
    | none => []
  (mapSet userId ws conns, closed)

/-- `disconnectUserWebSocket`: close and drop the registered connection of
this user, if any; a no-op otherwise. -/
def disconnectUserWebSocket (userId : Nat) (conns : List (Nat × Conn)) :
    List (Nat × Conn) × List Nat :=
  match mapGet userId conns with
  | some existing => (mapDelete userId conns, [existing.id])
  | none => (conns, [])

/-! ## Store reads of the message router -/

/-- The buddy-edge query of `handlePrivateMessage`: a `buddies` row in either
direction. -/
def areBuddies (db : DB) (a b : Nat) : Bool :=
  db.buddies.any (fun p => (p.1 = a && p.2 = b) || (p.1 = b && p.2 = a))

/-- The block query of `handlePrivateMessage`: a `blocks` row
`(blocker, blocked)`. -/
def isBlockedRow (db : DB) (blocker blocked : Nat) : Bool :=
  db.blocks.any (fun p => p.1 = blocker && p.2 = blocked)

/-- The one-directional buddy-set query of the presence fan-out:
`SELECT buddy_user_id FROM buddies WHERE user_id = userId`, in row order. -/
def buddyRowsOf (db : DB) (userId : Nat) : List Nat :=
  (db.buddies.filter (fun p => p.1 = userId)).map Prod.snd

/-- Is the connection of user `b` in map `conns` present with
`readyState === 1`? -/
def connOpen (conns : List (Nat × Conn)) (b : Nat) : Bool :=
  match mapGet b conns with
  | some c => decide (c.readyState = 1)
  | none => false

/-! ## Presence fan-out (`notifyBuddiesStatusChange`) -/

/-- The body of the fan-out `for` loop over the buddy rows.  A buddy without
an open connection is skipped.  If `ws.send` throws for a buddy
(`env.sendFails`), the exception propagates out of the loop to the `catch`
wrapping the whole function, so no later buddy is visited; the already
delivered sends stand. -/
def fanoutLoop (env : Env) (conns : List (Nat × Conn)) (userId : Nat)
    (status : String) : List Nat → List (Nat × OutEvent)
  | [] => []
  | b :: rest =>
    if connOpen conns b then
      if env.sendFails b then []
      else (b, OutEvent.buddyStatusChange userId status) ::
        fanoutLoop env conns userId status rest
    else fanoutLoop env conns userId status rest

/-- `SecureWebSocketServer.notifyBuddiesStatusChange`: query the buddy rows
of `userId` and push a `buddy_status_change` event to each buddy with an
open connection in `this.connections`; any exception is caught at function
level, so the caller always sees a normal return. -/
def notifyBuddiesStatusChange (env : Env) (st : SState) (userId : Nat)
    (status : String) : List (Nat × OutEvent) :=
  fanoutLoop env st.connections userId status (buddyRowsOf st.db userId)

/-! ## `MessageHandler.handlePrivateMessage` -/

/-- `MessageHandler.handlePrivateMessage`: content validation, sanitization,
buddy-edge check (either direction), block check (`toUserId` blocking the
sender), insert with `RETURNING id, created_at`, confirmation to the sender
(`direction: 'outgoing'`), and delivery to the recipient's registered
connection if it is open (`direction: 'incoming'`).  A throwing insert jumps
to the `catch` block, which reports `Failed to send message` to the sender;
nothing after the insert runs in that case. -/
def handlePrivateMessage (env : Env) (st : SState) (ws : Conn)
    (toUserId : Nat) (content : String) : HResult :=
  let senderId := ws.userId.getD 0
  if !validateMessageContent content then
    ⟨st, ws, [OutEvent.errorReply "Message contains invalid content"], [],
      none, [], [Step.contentCheck]⟩
  else
    let sanitizedContent := sanitizeMessageContent content
    if !areBuddies st.db senderId toUserId then
      ⟨st, ws, [OutEvent.errorReply "You can only message your buddies"], [],
        none, [], [Step.contentCheck, Step.buddyCheck]⟩
    else if isBlockedRow st.db toUserId senderId then
      ⟨st, ws, [OutEvent.errorReply "Cannot send message to this user"], [],
        none, [], [Step.contentCheck, Step.buddyCheck, Step.blockCheck]⟩
    else if st.db.insertFails then
      ⟨st, ws, [OutEvent.errorReply "Failed to send message"], [],
        none, [], [Step.contentCheck, Step.buddyCheck, Step.blockCheck]⟩
    else
      let row : MsgRow :=
        ⟨st.db.nextId, senderId, toUserId, sanitizedContent, env.now, false⟩
      let db : DB := { st.db with
        messages := st.db.messages ++ [row], nextId := st.db.nextId + 1 }
      let confirm :=
        OutEvent.privateMsgOut senderId sanitizedContent row.id env.now "outgoing"
      let incoming :=
        OutEvent.privateMsgOut senderId sanitizedContent row.id env.now "incoming"
      let recipientSends :=
        match mapGet toUserId st.wsConnections with
        | some recipientWs =>
          if recipientWs.readyState = 1 then [(toUserId, incoming)] else []
        | none => []
      ⟨{ st with db }, ws, [confirm], recipientSends, none, [],
        [Step.contentCheck, Step.buddyCheck, Step.blockCheck,
         Step.persistStep, Step.deliverStep]⟩

/-- `MessageHandler.handleTypingIndicator`: buddy check, then forward the
typing event to the recipient's registered connection if open; silent
otherwise. -/
def handleTypingIndicator (_env : Env) (st : SState) (ws : Conn)
    (toUserId : Nat) (t : String) : HResult :=
  let senderId := ws.userId.getD 0
  if !areBuddies st.db senderId toUserId then noopResult st ws
  else
    match mapGet toUserId st.wsConnections with
    | some recipientWs =>
      if recipientWs.readyState = 1 then
        ⟨st, ws, [], [(toUserId, OutEvent.typingEvt t senderId)], none, [],
          [Step.buddyCheck]⟩
      else ⟨st, ws, [], [], none, [], [Step.buddyCheck]⟩
    | none => ⟨st, ws, [], [], none, [], [Step.buddyCheck]⟩

/-! ## `SecureWebSocketServer.handleAuthentication` -/

/-- The `catch` branch of `handleAuthentication`: `auth_error` reply, then
`ws.close(1008, 'Authentication failed')`. -/
def authFailResult (st : SState) (ws : Conn) : HResult :=
  ⟨st, ws, [OutEvent.authError], [], some (1008, "Authentication failed"), [],
    [Step.authStep]⟩

/-- `SecureWebSocketServer.handleAuthentication`: a missing or falsy token,
a failing `jwt.verify` or a non-`access` token class all land in the `catch`
branch; at the per-user ceiling the connection is closed with
`1008 Too many connections for this user` (no reply, no eviction); otherwise
the connection is marked authenticated, registered (evicting any previous
connection of the user), the stored status flips to `online`, `auth_success`
is sent, and the buddy fan-out runs. -/
def handleAuthentication (env : Env) (st : SState) (ws : Conn)
    (token : Option String) : HResult :=
  match token with
  | none => authFailResult st ws
  | some tk =>
    if tk = "" then authFailResult st ws
    else
      match env.jwtVerify tk with
      | none => authFailResult st ws
      | some (uid, email, typ) =>
        if typ ≠ "access" then authFailResult st ws
        else
          match checkUserConnectionLimit uid st.userConnCounts with
          | (false, _) =>
            ⟨st, ws, [], [], some (1008, "Too many connections for this user"),
              [], [Step.authStep]⟩
          | (true, counts) =>
            let ws' : Conn := { ws with isAuthenticated := true, userId := some uid }
            let (wsConns, evicted) :=
              registerWebSocketConnection uid ws' st.wsConnections
            let conns := mapSet uid ws' st.connections
            let db : DB := { st.db with statuses := mapSet uid "online" st.db.statuses }
            let st' : SState := { st with
              wsConnections := wsConns, connections := conns,
              userConnCounts := counts, db }
            let fanout := notifyBuddiesStatusChange env st' uid "online"
            ⟨st', ws', [OutEvent.authSuccess uid email], fanout, none, evicted,
              [Step.authStep]⟩

/-! ## `SecureWebSocketServer.setupCloseHandler` -/

/-- The `close` handler: for an authenticated connection, drop it from
`this.connections`, run `disconnectUserWebSocket` on the middleware
registry, flip the stored status to `offline`, and fan the offline status
out to the buddies.  A connection that never authenticated (`ws.userId`
null) is a no-op. -/
def handleClose (env : Env) (st : SState) (ws : Conn) : HResult :=
  match ws.userId with
  | none => noopResult st ws
  | some uid =>
    let conns := mapDelete uid st.connections
    let (wsConns, closed) := disconnectUserWebSocket uid st.wsConnections
    let db : DB := { st.db with statuses := mapSet uid "offline" st.db.statuses }
    let st' : SState := { st with
      wsConnections := wsConns, connections := conns, db }
    let fanout := notifyBuddiesStatusChange env st' uid "offline"
    ⟨st', ws, [], fanout, none, closed, []⟩

/-! ## `SecureWebSocketServer.handleMessage` and the inbound pipeline -/

/-- `SecureWebSocketServer.handleMessage`: the `switch` on `message.type`.
`private_message` and typing indicators only reach their handlers when
`ws.isAuthenticated`; with an unauthenticated connection the `case` body is
skipped entirely (no reply, no close).  `ping` answers `pong` in every
state; an unknown type gets an error reply.  The `getD` defaults stand for
fields the structure validator has already guaranteed present on every path
that reaches a handler. -/
def handleMessage (env : Env) (st : SState) (ws : Conn) (m : WireMsg) :
    HResult :=
  let t := m.type.getD ""
  if t = "authenticate" then handleAuthentication env st ws m.token
  else if t = "private_message" then
    if ws.isAuthenticated then
      handlePrivateMessage env st ws (m.toUserId.getD 0) (m.message.getD "")
    else noopResult st ws
  else if t = "typing_start" || t = "typing_stop" then
    if ws.isAuthenticated then
      handleTypingIndicator env st ws (m.toUserId.getD 0) t
    else noopResult st ws
  else if t = "ping" then
    ⟨st, ws, [OutEvent.pong], [], none, [], []⟩
  else
    ⟨st, ws, [OutEvent.errorReply "Unknown message type"], [], none, [], []⟩

/-- An inbound frame: its serialized byte length and what `JSON.parse` does
with it (`Except.error` models the parser throwing). -/
structure RawData where
  size : Nat
  parse : Except Unit Parsed

/-- `setupMessageHandler`'s `message` listener: size gate (an oversized
frame closes the connection with `1009 Message too large` before anything
else runs), `JSON.parse` (a throw is caught and answered with
`Invalid message`), structure validation, per-(ip,type) rate limiting, and
only then the `handleMessage` dispatch. -/
def onRawMessage (env : Env) (st : SState) (ws : Conn) (raw : RawData) :
    HResult :=
  if !validateMessageSize raw.size then
    ⟨st, ws, [], [], some (1009, "Message too large"), [], [Step.sizeCheck]⟩
  else
    match raw.parse with
    | Except.error _ =>
      ⟨st, ws, [OutEvent.errorReply "Invalid message"], [], none, [],
        [Step.sizeCheck, Step.parseStep]⟩
    | Except.ok p =>
      if !validateMessageStructure p then
        ⟨st, ws, [OutEvent.errorReply "Invalid message format"], [], none, [],
          [Step.sizeCheck, Step.parseStep, Step.structureCheck]⟩
      else
        match p with
        | Parsed.nonObject =>
          ⟨st, ws, [OutEvent.errorReply "Invalid message format"], [], none,
            [], [Step.sizeCheck, Step.parseStep, Step.structureCheck]⟩
        | Parsed.obj m =>
          let t := m.type.getD ""
          match checkMessageRateLimit ws.ip t env.now st.messageRates with
          | (false, _) =>
            ⟨st, ws, [OutEvent.errorReply "Rate limit exceeded"], [], none,
              [], [Step.sizeCheck, Step.parseStep, Step.structureCheck,
                   Step.rateCheck]⟩
          | (true, rates) =>
            let st' : SState := { st with messageRates := rates }
            let r := handleMessage env st' ws m
            { r with trace :=
                [Step.sizeCheck, Step.parseStep, Step.structureCheck,
                 Step.rateCheck] ++ r.trace }

/-! ## Token blacklist (`TokenBlacklist`) -/

/-- A bcrypt hash value.  A real bcrypt digest embeds the salt it was
computed with, so two hashes made with different salts are distinct strings
whatever the inputs; the embedding keeps the salt explicit and derives the
digest deterministically from token and salt. -/
structure BcryptHash where
  salt : Nat
  digest : Nat
deriving DecidableEq

/-- `bcrypt.hash(token, 10)` with the freshly generated random salt made
explicit. -/
def bcryptHash (token : String) (salt : Nat) : BcryptHash :=
  ⟨salt, token.data.foldl (fun a c => a * 31 + c.toNat) salt⟩

/-- A row of the `token_blacklist` table. -/
structure BlacklistRow where
  tokenHash : BcryptHash
  expiresAt : Nat
deriving DecidableEq

/-- `TokenBlacklist.addToken`: hash the token with a fresh random salt and
insert the row (`ON CONFLICT (token_hash) DO NOTHING`). -/
def blacklistAddToken (token : String) (salt : Nat) (exp : Nat)
    (tbl : List BlacklistRow) : List BlacklistRow :=
  let h := bcryptHash token salt
  if tbl.any (fun r => r.tokenHash = h) then tbl
  else tbl ++ [⟨h, exp⟩]

/-- `TokenBlacklist.isTokenBlacklisted` (the non-throwing path): hash the
token again with another fresh random salt and look that hash up among the
unexpired rows. -/
def isTokenBlacklisted (token : String) (salt : Nat) (now : Nat)
    (tbl : List BlacklistRow) : Bool :=
  let h := bcryptHash token salt
  tbl.any (fun r => r.tokenHash = h && decide (now < r.expiresAt))

/-! ## Helper lemmas on lists and maps -/

theorem dropWhile_head?_false {α : Type} (p : α → Bool) :
    ∀ (l : List α) (a : α), (l.dropWhile p).head? = some a → p a = false := by
  intro l
  induction l with
  | nil => intro a h; simp [List.dropWhile] at h
  | cons x xs ih =>
    intro a h
    rw [List.dropWhile_cons] at h
    by_cases hx : p x = true
    · rw [if_pos hx] at h; exact ih a h
    · rw [if_neg hx] at h
      simp only [List.head?_cons, Option.some.injEq] at h
      subst h
      exact Bool.not_eq_true _ ▸ (Bool.eq_false_iff.mpr hx)

theorem dropWhile_eq_self_of_head {α : Type} (p : α → Bool) (l : List α)
    (h : ∀ a, l.head? = some a → p a = false) : l.dropWhile p = l := by
  cases l with
  | nil => rfl
  | cons x xs =>
    rw [List.dropWhile_cons, if_neg]
    rw [h x rfl]
    simp

theorem dropWhile_dropWhile {α : Type} (p : α → Bool) (l : List α) :
    (l.dropWhile p).dropWhile p = l.dropWhile p :=
  dropWhile_eq_self_of_head p _ (fun a h => dropWhile_head?_false p l a h)

theorem mem_of_mem_dropWhile {α : Type} (p : α → Bool) :
    ∀ (l : List α) (a : α), a ∈ l.dropWhile p → a ∈ l := by
  intro l
  induction l with
  | nil => intro a h; simp [List.dropWhile] at h
  | cons x xs ih =>
    intro a h
    rw [List.dropWhile_cons] at h
    by_cases hx : p x = true
    · rw [if_pos hx] at h; exact List.mem_cons_of_mem _ (ih a h)
    · rw [if_neg hx] at h; exact h

theorem dropWhile_getLast? {α : Type} (p : α → Bool) :
    ∀ l : List α, l.dropWhile p ≠ [] → (l.dropWhile p).getLast? = l.getLast? := by
  intro l
  induction l with
  | nil => intro h; simp [List.dropWhile] at h
  | cons x xs ih =>
    intro h
    rw [List.dropWhile_cons]
    by_cases hx : p x = true
    · rw [List.dropWhile_cons, if_pos hx] at h
      rw [if_pos hx, ih h]
      have hxs : xs ≠ [] := by
        intro hnil; rw [hnil] at h; exact h rfl
      cases xs with
      | nil => exact absurd rfl hxs
      | cons y ys => simp [List.getLast?_cons_cons]
    · rw [if_neg hx]

/-! ## Trim and replacement lemmas (sanitization) -/

theorem trimList_trimList (l : List Char) :
    trimList (trimList l) = trimList l := by
  unfold trimList
  set y := l.dropWhile isJsSpace with hy
  set z := y.reverse.dropWhile isJsSpace with hz
  have hzrev : z.reverse.dropWhile isJsSpace = z.reverse := by
    apply dropWhile_eq_self_of_head
    intro a ha
    rw [List.head?_reverse] at ha
    have hzne : z ≠ [] := by
      intro hnil; rw [hnil] at ha; simp at ha
    have hlast := dropWhile_getLast? isJsSpace y.reverse (hz ▸ hzne)
    rw [← hz] at hlast
    rw [hlast, List.getLast?_reverse] at ha
    exact dropWhile_head?_false isJsSpace l a (hy ▸ ha)
  rw [hzrev, List.reverse_reverse, hz, dropWhile_dropWhile]

theorem mem_of_mem_trimList (l : List Char) (a : Char)
    (h : a ∈ trimList l) : a ∈ l := by
  unfold trimList at h
  rw [List.mem_reverse] at h
  have h1 := mem_of_mem_dropWhile isJsSpace _ _ h
  rw [List.mem_reverse] at h1
  exact mem_of_mem_dropWhile isJsSpace _ _ h1

theorem replAll_eq_self (c : Char) (r : List Char) :
    ∀ l : List Char, c ∉ l → replAll c r l = l := by
  intro l
  induction l with
  | nil => intro _; rfl
  | cons x xs ih =>
    intro h
    rw [List.mem_cons, not_or] at h
    unfold replAll
    rw [if_neg (fun hxc => h.1 hxc.symm), ih h.2]

/-- The characters `sanitizeMessageContent` escapes. -/
def escapedChars : List Char :=
  [ampChar, '<', '>', quoteChar, aposChar, slashChar]

theorem sanitizeList_of_escape_free (l : List Char)
    (h : ∀ c ∈ l, c ∉ escapedChars) : sanitizeList l = trimList l := by
  unfold sanitizeList
  have hnot : ∀ c ∈ escapedChars, c ∉ l := by
    intro c hc hcl
    exact h c hcl hc
  rw [replAll_eq_self ampChar _ l (hnot ampChar (by decide)),
      replAll_eq_self '<' _ l (hnot '<' (by decide)),
      replAll_eq_self '>' _ l (hnot '>' (by decide)),
      replAll_eq_self quoteChar _ l (hnot quoteChar (by decide)),
      replAll_eq_self aposChar _ l (hnot aposChar (by decide)),
      replAll_eq_self slashChar _ l (hnot slashChar (by decide))]

/-! ## C4: sanitization is NOT stable under re-application -/

/-- C4 (counterexample): the claim that
`sanitizeMessageContent (sanitizeMessageContent s) = sanitizeMessageContent s`
for every string `s` is false at `s = "&"`: the escaping introduces an
ampersand, which the second pass escapes again. -/
theorem c4_sanitize_not_idempotent_counterexample :
    ¬ (sanitizeMessageContent (sanitizeMessageContent "&") =
        sanitizeMessageContent "&") ∧
    sanitizeMessageContent "&" = "&amp;" ∧
    sanitizeMessageContent (sanitizeMessageContent "&") = "&amp;amp;" := by
  refine ⟨?_, by decide, by decide⟩
  decide

/-- C4 (amended): `sanitizeMessageContent` is stable under re-application on
exactly the strings that contain none of the six characters it escapes
(ampersand, angle brackets, double quote, single quote, slash); on such a
string both passes reduce to `trim`, which is idempotent.  A string
containing an escaped character is double-escaped by the second pass. -/
theorem c4_sanitize_idempotent_on_escape_free (s : String)
    (h : ∀ c ∈ s.data, c ∉ escapedChars) :
    sanitizeMessageContent (sanitizeMessageContent s) = sanitizeMessageContent s := by
  unfold sanitizeMessageContent
  have hdata : (String.mk (sanitizeList s.data)).data = sanitizeList s.data := rfl
  rw [hdata]
  have h1 : sanitizeList s.data = trimList s.data :=
    sanitizeList_of_escape_free s.data h
  have h2 : ∀ c ∈ trimList s.data, c ∉ escapedChars :=
    fun c hc => h c (mem_of_mem_trimList s.data c hc)
  rw [h1, sanitizeList_of_escape_free _ h2, trimList_trimList]

/-- C4 (witness): the amended idempotence applied at the concrete escape-free
string `"hello"`. -/
theorem c4_sanitize_idempotent_witness :
    (∀ c ∈ ("hello").data, c ∉ escapedChars) ∧
    sanitizeMessageContent (sanitizeMessageContent "hello") =
      sanitizeMessageContent "hello" :=
  ⟨by decide, c4_sanitize_idempotent_on_escape_free "hello" (by decide)⟩

/-! ## Map lemmas (registry invariant) -/

theorem mapGet_mapSet_self {κ : Type} [DecidableEq κ] {α : Type} (k : κ) (v : α) :
    ∀ l : List (κ × α), mapGet k (mapSet k v l) = some v := by
  intro l
  induction l with
  | nil => simp [mapGet, mapSet]
  | cons p rest ih =>
    obtain ⟨k0, v0⟩ := p
    unfold mapSet
    by_cases hk : k0 = k
    · rw [if_pos hk]; unfold mapGet; rw [if_pos hk]
    · rw [if_neg hk]; unfold mapGet; rw [if_neg hk]; exact ih

theorem mem_keys_mapSet {κ : Type} [DecidableEq κ] {α : Type} (k : κ) (v : α) :
    ∀ (l : List (κ × α)) (a : κ), a ∈ (mapSet k v l).map Prod.fst →
      a ∈ l.map Prod.fst ∨ a = k := by
  intro l
  induction l with
  | nil =>
    intro a ha
    simp [mapSet] at ha
    exact Or.inr ha
  | cons p rest ih =>
    obtain ⟨k0, v0⟩ := p
    intro a ha
    unfold mapSet at ha
    by_cases hk : k0 = k
    · rw [if_pos hk] at ha
      simp only [List.map_cons, List.mem_cons] at ha
      rcases ha with ha | ha
      · exact Or.inl (by simp [ha])
      · exact Or.inl (by simp [ha])
    · rw [if_neg hk] at ha
      simp only [List.map_cons, List.mem_cons] at ha
      rcases ha with ha | ha
      · exact Or.inl (by simp [ha])
      · rcases ih a ha with h1 | h1
        · exact Or.inl (by simp [h1])
        · exact Or.inr h1

theorem nodupKeys_mapSet {κ : Type} [DecidableEq κ] {α : Type} (k : κ) (v : α) :
    ∀ l : List (κ × α), NodupKeys l → NodupKeys (mapSet k v l) := by
  intro l
  induction l with
  | nil => intro _; simp [mapSet, NodupKeys]
  | cons p rest ih =>
    obtain ⟨k0, v0⟩ := p
    intro hn
    unfold NodupKeys at hn
    simp only [List.map_cons, List.nodup_cons] at hn
    unfold mapSet
    by_cases hk : k0 = k
    · rw [if_pos hk]
      unfold NodupKeys
      simp only [List.map_cons, List.nodup_cons]
      exact hn
    · rw [if_neg hk]
      unfold NodupKeys
      simp only [List.map_cons, List.nodup_cons]
      refine ⟨?_, ih hn.2⟩
      intro hmem
      rcases mem_keys_mapSet k v rest k0 hmem with h1 | h1
      · exact hn.1 h1
      · exact hk h1

theorem keyCount_eq_zero_of_not_mem {κ : Type} [DecidableEq κ] {α : Type} (k : κ) :
    ∀ l : List (κ × α), k ∉ l.map Prod.fst → keyCount k l = 0 := by
  intro l
  induction l with
  | nil => intro _; rfl
  | cons p rest ih =>
    obtain ⟨k0, v0⟩ := p
    intro h
    simp only [List.map_cons, List.mem_cons, not_or] at h
    have hne : ¬ ((k0, v0).1 = k) := fun hc => h.1 hc.symm
    have hz := ih h.2
    unfold keyCount at hz ⊢
    rw [List.filter_cons, if_neg (by simp [hne])]
    exact hz

theorem keyCount_eq_one_of_nodup_get {κ : Type} [DecidableEq κ] {α : Type} (k : κ) :
    ∀ l : List (κ × α), NodupKeys l → (mapGet k l).isSome →
      keyCount k l = 1 := by
  intro l
  induction l with
  | nil => intro _ h; simp [mapGet] at h
  | cons p rest ih =>
    obtain ⟨k0, v0⟩ := p
    intro hn hget
    unfold NodupKeys at hn
    simp only [List.map_cons, List.nodup_cons] at hn
    unfold keyCount
    by_cases hk : k0 = k
    · rw [List.filter_cons, if_pos (by simp [hk])]
      have hz : keyCount k rest = 0 :=
        keyCount_eq_zero_of_not_mem k rest (hk ▸ hn.1)
      unfold keyCount at hz
      simp [hz]
    · rw [List.filter_cons, if_neg (by simp [hk])]
      unfold mapGet at hget
      rw [if_neg hk] at hget
      exact ih hn.2 hget

/-! ## C2: the registry keeps at most one live connection per user -/

/-- C2: if `c1` is the registered connection of a user and
`registerWebSocketConnection(userId, c2)` runs, then `c1` is closed, `c2` is
installed, the registry holds exactly one entry for that user, and the
no-duplicate-keys shape (at most one connection per user id) is preserved. -/
theorem c2_register_evicts_and_keeps_single_entry
    (conns : List (Nat × Conn)) (uid : Nat) (c1 c2 : Conn)
    (hn : NodupKeys conns) (hold : mapGet uid conns = some c1) :
    c1.id ∈ (registerWebSocketConnection uid c2 conns).2 ∧
    mapGet uid (registerWebSocketConnection uid c2 conns).1 = some c2 ∧
    keyCount uid (registerWebSocketConnection uid c2 conns).1 = 1 ∧
    NodupKeys (registerWebSocketConnection uid c2 conns).1 := by
  unfold registerWebSocketConnection
  rw [hold]
  refine ⟨List.mem_singleton.mpr rfl, mapGet_mapSet_self uid c2 conns, ?_, ?_⟩
  · exact keyCount_eq_one_of_nodup_get uid _ (nodupKeys_mapSet uid c2 conns hn)
      (by rw [mapGet_mapSet_self]; rfl)
  · exact nodupKeys_mapSet uid c2 conns hn

/-- C2 (witness): eviction at a concrete one-entry registry. -/
theorem c2_register_witness :
    NodupKeys [(7, (⟨1, "a", true, some 7, 1⟩ : Conn))] ∧
    mapGet 7 [(7, (⟨1, "a", true, some 7, 1⟩ : Conn))] =
      some ⟨1, "a", true, some 7, 1⟩ ∧
    ((1 : Nat) ∈ (registerWebSocketConnection 7 ⟨2, "a", true, some 7, 1⟩
        [(7, ⟨1, "a", true, some 7, 1⟩)]).2 ∧
      mapGet 7 (registerWebSocketConnection 7 ⟨2, "a", true, some 7, 1⟩
        [(7, ⟨1, "a", true, some 7, 1⟩)]).1 = some ⟨2, "a", true, some 7, 1⟩ ∧
      keyCount 7 (registerWebSocketConnection 7 ⟨2, "a", true, some 7, 1⟩
        [(7, ⟨1, "a", true, some 7, 1⟩)]).1 = 1 ∧
      NodupKeys (registerWebSocketConnection 7 ⟨2, "a", true, some 7, 1⟩
        [(7, ⟨1, "a", true, some 7, 1⟩)]).1) :=
  ⟨by unfold NodupKeys; decide, by decide,
    c2_register_evicts_and_keeps_single_entry
      [(7, ⟨1, "a", true, some 7, 1⟩)] 7 ⟨1, "a", true, some 7, 1⟩
      ⟨2, "a", true, some 7, 1⟩ (by unfold NodupKeys; decide) (by decide)⟩

/-! ## C8: the bcrypt-hashed blacklist lookup can never match -/

/-- C8: a bcrypt hash embeds the salt it was computed with, and
`isTokenBlacklisted` hashes the probed token with a fresh random salt; a
fresh salt differs from the salt inside every stored row, so the lookup key
equals no stored hash and the check returns `false` even for a token that
`addToken` stored — the blacklist never reports a blacklisted token. -/
theorem c8_blacklist_check_always_false
    (token : String) (salt1 salt2 exp now : Nat) (tbl : List BlacklistRow)
    (hsalt : salt1 ≠ salt2)
    (hfresh : ∀ r ∈ blacklistAddToken token salt1 exp tbl,
        r.tokenHash.salt ≠ salt2) :
    bcryptHash token salt1 ≠ bcryptHash token salt2 ∧
    isTokenBlacklisted token salt2 now (blacklistAddToken token salt1 exp tbl)
      = false := by
  constructor
  · intro h
    exact hsalt (congrArg BcryptHash.salt h)
  · unfold isTokenBlacklisted
    rw [List.any_eq_false]
    intro r hr
    simp only [Bool.and_eq_true, decide_eq_true_eq, not_and]
    intro heq
    exact absurd (congrArg BcryptHash.salt heq) (hfresh r hr)

/-- C8 (witness): a token blacklisted with salt `0` is then probed with the
fresh salt `1`; the lookup returns `false` although the token is stored. -/
theorem c8_blacklist_check_witness :
    (0 : Nat) ≠ 1 ∧
    (∀ r ∈ blacklistAddToken "tok" 0 100 [], r.tokenHash.salt ≠ 1) ∧
    (bcryptHash "tok" 0 ≠ bcryptHash "tok" 1 ∧
      isTokenBlacklisted "tok" 1 50 (blacklistAddToken "tok" 0 100 []) = false) :=
  ⟨by decide, by decide,
    c8_blacklist_check_always_false "tok" 0 1 100 50 [] (by decide) (by decide)⟩

/-! ## C10: the empty message body passes validation -/

/-- C10: `validateMessageContent` accepts the empty string (the
special-character ratio test is the `NaN`-guarded zero-length case and no
dangerous pattern matches), the structure validator accepts a
`private_message` with an empty body (length `0 ≤ 1000`), and the router
persists such a message between buddies. -/
theorem c10_empty_message_accepted :
    validateMessageContent "" = true ∧
    ratioExceedsThreshold "".data = false ∧
    validateMessageStructure
      (Parsed.obj ⟨some "private_message", some 2, some "", none⟩) = true ∧
    (handlePrivateMessage ⟨5, fun _ => none, fun _ => false⟩
        ⟨[], [], [], [], ⟨[(1, 2)], [], [], [], 1, false⟩⟩
        ⟨10, "ip", true, some 1, 1⟩ 2 "").st.db.messages =
      [⟨1, 1, 2, "", 5, false⟩] := by
  refine ⟨by decide, by decide, by decide, ?_⟩
  decide

/-! ## C1: routing of a private message -/

/-- C1: for an authenticated sender `A` sending a valid-content
`private_message` to `B`, the message is persisted and the outgoing
confirmation delivered iff a buddy edge exists in either direction and `B`
has not blocked `A`; with no buddy edge the router replies with the
not-buddies error and writes nothing, and with a block it replies with the
blocked error and writes nothing. -/
theorem c1_private_message_requires_buddy_not_blocked
    (env : Env) (st : SState) (ws : Conn) (A B : Nat) (content : String)
    (huid : ws.userId = some A)
    (hcontent : validateMessageContent content = true)
    (hdb : st.db.insertFails = false) :
    (areBuddies st.db A B = false →
      (handlePrivateMessage env st ws B content).selfEvents =
        [OutEvent.errorReply "You can only message your buddies"] ∧
      (handlePrivateMessage env st ws B content).st = st ∧
      (handlePrivateMessage env st ws B content).otherSends = []) ∧
    (areBuddies st.db A B = true → isBlockedRow st.db B A = true →
      (handlePrivateMessage env st ws B content).selfEvents =
        [OutEvent.errorReply "Cannot send message to this user"] ∧
      (handlePrivateMessage env st ws B content).st = st ∧
      (handlePrivateMessage env st ws B content).otherSends = []) ∧
    (((handlePrivateMessage env st ws B content).st.db.messages =
        st.db.messages ++ [⟨st.db.nextId, A, B, sanitizeMessageContent content,
          env.now, false⟩] ∧
      (handlePrivateMessage env st ws B content).selfEvents =
        [OutEvent.privateMsgOut A (sanitizeMessageContent content)
          st.db.nextId env.now "outgoing"]) ↔
      (areBuddies st.db A B = true ∧ isBlockedRow st.db B A = false)) := by
  have hsender : ws.userId.getD 0 = A := by rw [huid]; rfl
  refine ⟨?_, ?_, ?_⟩
  · intro hb
    simp [handlePrivateMessage, hsender, hcontent, hb]
  · intro hb hblk
    simp [handlePrivateMessage, hsender, hcontent, hb, hblk]
  · constructor
    · rintro ⟨happ, hevents⟩
      cases hb : areBuddies st.db A B with
      | false =>
        exfalso
        simp [handlePrivateMessage, hsender, hcontent, hb] at hevents
      | true =>
        cases hblk : isBlockedRow st.db B A with
        | false => exact ⟨rfl, rfl⟩
        | true =>
          exfalso
          simp [handlePrivateMessage, hsender, hcontent, hb, hblk] at hevents
    · rintro ⟨hb, hblk⟩
      simp [handlePrivateMessage, hsender, hcontent, hb, hblk, hdb]

/-- C1 (witness): users 1 and 2 are buddies with no block; sending `"hello"`
persists the sanitized row and confirms to the sender, instantiating the
routing theorem at a concrete state. -/
theorem c1_private_message_witness :
    ((⟨10, "ip", true, some 1, 1⟩ : Conn).userId = some 1 ∧
      validateMessageContent "hello" = true ∧
      (⟨[], [], [], [], ⟨[(1, 2)], [], [], [], 1, false⟩⟩ :
        SState).db.insertFails = false) ∧
    (((handlePrivateMessage ⟨5, fun _ => none, fun _ => false⟩
        ⟨[], [], [], [], ⟨[(1, 2)], [], [], [], 1, false⟩⟩
        ⟨10, "ip", true, some 1, 1⟩ 2 "hello").st.db.messages =
          [] ++ [⟨1, 1, 2, sanitizeMessageContent "hello", 5, false⟩] ∧
      (handlePrivateMessage ⟨5, fun _ => none, fun _ => false⟩
        ⟨[], [], [], [], ⟨[(1, 2)], [], [], [], 1, false⟩⟩
        ⟨10, "ip", true, some 1, 1⟩ 2 "hello").selfEvents =
          [OutEvent.privateMsgOut 1 (sanitizeMessageContent "hello") 1 5
            "outgoing"]) ↔
      (areBuddies ⟨[(1, 2)], [], [], [], 1, false⟩ 1 2 = true ∧
        isBlockedRow ⟨[(1, 2)], [], [], [], 1, false⟩ 2 1 = false)) :=
  ⟨⟨rfl, by decide, rfl⟩,
    (c1_private_message_requires_buddy_not_blocked
      ⟨5, fun _ => none, fun _ => false⟩
      ⟨[], [], [], [], ⟨[(1, 2)], [], [], [], 1, false⟩⟩
      ⟨10, "ip", true, some 1, 1⟩ 1 2 "hello" rfl (by decide) rfl).2.2⟩

/-! ## C3: a failing insert causes no delivery -/

/-- C3: when the database insert of the sanitized message throws, the sender
gets only the `Failed to send message` error reply — no confirmation with a
persisted id, no incoming event to the recipient, and the state (in
particular the message table) is unchanged; the persist and deliver stages
never run. -/
theorem c3_insert_failure_no_partial_delivery
    (env : Env) (st : SState) (ws : Conn) (A B : Nat) (content : String)
    (huid : ws.userId = some A)
    (hcontent : validateMessageContent content = true)
    (hb : areBuddies st.db A B = true)
    (hblk : isBlockedRow st.db B A = false)
    (hfail : st.db.insertFails = true) :
    (handlePrivateMessage env st ws B content).selfEvents =
      [OutEvent.errorReply "Failed to send message"] ∧
    (handlePrivateMessage env st ws B content).otherSends = [] ∧
    (handlePrivateMessage env st ws B content).st = st ∧
    Step.persistStep ∉ (handlePrivateMessage env st ws B content).trace ∧
    Step.deliverStep ∉ (handlePrivateMessage env st ws B content).trace := by
  have hsender : ws.userId.getD 0 = A := by rw [huid]; rfl
  simp [handlePrivateMessage, hsender, hcontent, hb, hblk, hfail]

/-- C3 (witness): the insert-failure theorem instantiated at a concrete
state whose store refuses the insert. -/
theorem c3_insert_failure_witness :
    ((⟨10, "ip", true, some 1, 1⟩ : Conn).userId = some 1 ∧
      validateMessageContent "hello" = true ∧
      areBuddies ⟨[(1, 2)], [], [], [], 1, true⟩ 1 2 = true ∧
      isBlockedRow ⟨[(1, 2)], [], [], [], 1, true⟩ 2 1 = false ∧
      (⟨[(1, 2)], [], [], [], 1, true⟩ : DB).insertFails = true) ∧
    ((handlePrivateMessage ⟨5, fun _ => none, fun _ => false⟩
        ⟨[], [], [], [], ⟨[(1, 2)], [], [], [], 1, true⟩⟩
        ⟨10, "ip", true, some 1, 1⟩ 2 "hello").selfEvents =
      [OutEvent.errorReply "Failed to send message"] ∧
      (handlePrivateMessage ⟨5, fun _ => none, fun _ => false⟩
        ⟨[], [], [], [], ⟨[(1, 2)], [], [], [], 1, true⟩⟩
        ⟨10, "ip", true, some 1, 1⟩ 2 "hello").otherSends = [] ∧
      (handlePrivateMessage ⟨5, fun _ => none, fun _ => false⟩
        ⟨[], [], [], [], ⟨[(1, 2)], [], [], [], 1, true⟩⟩
        ⟨10, "ip", true, some 1, 1⟩ 2 "hello").st =
        ⟨[], [], [], [], ⟨[(1, 2)], [], [], [], 1, true⟩⟩ ∧
      Step.persistStep ∉ (handlePrivateMessage ⟨5, fun _ => none, fun _ => false⟩
        ⟨[], [], [], [], ⟨[(1, 2)], [], [], [], 1, true⟩⟩
        ⟨10, "ip", true, some 1, 1⟩ 2 "hello").trace ∧
      Step.deliverStep ∉ (handlePrivateMessage ⟨5, fun _ => none, fun _ => false⟩
        ⟨[], [], [], [], ⟨[(1, 2)], [], [], [], 1, true⟩⟩
        ⟨10, "ip", true, some 1, 1⟩ 2 "hello").trace) :=
  ⟨⟨rfl, by decide, by decide, by decide, rfl⟩,
    c3_insert_failure_no_partial_delivery ⟨5, fun _ => none, fun _ => false⟩
      ⟨[], [], [], [], ⟨[(1, 2)], [], [], [], 1, true⟩⟩
      ⟨10, "ip", true, some 1, 1⟩ 1 2 "hello" rfl (by decide) (by decide)
      (by decide) rfl⟩

/-! ## C6: the presence fan-out is NOT per-recipient independent -/

/-- C6 (counterexample): user 0 has the connected buddies 1 and 2; sending
to buddy 1 throws.  The claim says buddy 2 still receives the
status-change event; in the code the exception aborts the `for` loop (it is
caught only around the whole function), so nobody receives anything. -/
theorem c6_fanout_abort_counterexample :
    notifyBuddiesStatusChange
      ⟨0, fun _ => none, fun b => b == 1⟩
      ⟨[], [(1, ⟨1, "ip", true, some 1, 1⟩), (2, ⟨2, "ip", true, some 2, 1⟩)],
        [], [], ⟨[(0, 1), (0, 2)], [], [], [], 1, false⟩⟩ 0 "online" = [] ∧
    buddyRowsOf (⟨[(0, 1), (0, 2)], [], [], [], 1, false⟩ : DB) 0 = [1, 2] ∧
    connOpen [(1, ⟨1, "ip", true, some 1, 1⟩), (2, ⟨2, "ip", true, some 2, 1⟩)]
      2 = true := by
  refine ⟨?_, by decide, by decide⟩
  decide

/-- C6 (amended): delivery is sequential in buddy-row order and an exception
on one send aborts the rest of the fan-out (though it is swallowed before
reaching the caller): exactly the buddies with an open connection that come
strictly before the first connected buddy whose send throws receive the
event; every buddy from that point on receives nothing. -/
theorem c6_fanout_stops_at_first_throwing_send
    (env : Env) (st : SState) (userId : Nat) (status : String) :
    notifyBuddiesStatusChange env st userId status =
      (((buddyRowsOf st.db userId).takeWhile
          (fun b => !(connOpen st.connections b && env.sendFails b))).filter
        (fun b => connOpen st.connections b)).map
        (fun b => (b, OutEvent.buddyStatusChange userId status)) := by
  unfold notifyBuddiesStatusChange
  induction buddyRowsOf st.db userId with
  | nil => rfl
  | cons b rest ih =>
    unfold fanoutLoop
    cases hopen : connOpen st.connections b with
    | false =>
      rw [if_neg (by simp [hopen])]
      rw [List.takeWhile_cons, if_pos (by simp [hopen])]
      rw [List.filter_cons, if_neg (by simp [hopen])]
      exact ih
    | true =>
      rw [if_pos (by simp [hopen])]
      cases hfail : env.sendFails b with
      | true =>
        rw [if_pos rfl]
        rw [List.takeWhile_cons, if_neg (by simp [hopen, hfail])]
        rfl
      | false =>
        rw [if_neg (by simp)]
        rw [List.takeWhile_cons, if_pos (by simp [hopen, hfail])]
        rw [List.filter_cons, if_pos (by simp [hopen])]
        rw [ih]
        rfl

/-! ## C7: an oversized payload is closed before anything runs -/

/-- C7: an inbound frame larger than 10 KiB closes the connection with close
code 1009 (`Message too large`) straight from the size gate: the state is
untouched, nothing is sent to anyone, and parsing, content validation,
persistence and delivery never run. -/
theorem c7_oversized_payload_closed_before_validation
    (env : Env) (st : SState) (ws : Conn) (raw : RawData)
    (hsize : MAX_MESSAGE_SIZE < raw.size) :
    (onRawMessage env st ws raw).selfClose = some (1009, "Message too large") ∧
    (onRawMessage env st ws raw).st = st ∧
    (onRawMessage env st ws raw).selfEvents = [] ∧
    (onRawMessage env st ws raw).otherSends = [] ∧
    (onRawMessage env st ws raw).closedConns = [] ∧
    (onRawMessage env st ws raw).trace = [Step.sizeCheck] ∧
    Step.parseStep ∉ (onRawMessage env st ws raw).trace ∧
    Step.contentCheck ∉ (onRawMessage env st ws raw).trace ∧
    Step.persistStep ∉ (onRawMessage env st ws raw).trace ∧
    Step.deliverStep ∉ (onRawMessage env st ws raw).trace := by
  have hv : validateMessageSize raw.size = false := by
    unfold validateMessageSize
    simp only [decide_eq_false_iff_not]
    omega
  simp [onRawMessage, hv]

/-- C7 (witness): a 20000-byte frame (whatever it would parse to) is closed
with code 1009 and no stage after the size gate runs. -/
theorem c7_oversized_payload_witness :
    MAX_MESSAGE_SIZE < 20000 ∧
    ((onRawMessage ⟨0, fun _ => none, fun _ => false⟩
        ⟨[], [], [], [], ⟨[], [], [], [], 1, false⟩⟩
        ⟨10, "ip", false, none, 1⟩
        ⟨20000, Except.ok (Parsed.obj ⟨some "ping", none, none, none⟩)⟩).selfClose =
      some (1009, "Message too large") ∧
      (onRawMessage ⟨0, fun _ => none, fun _ => false⟩
        ⟨[], [], [], [], ⟨[], [], [], [], 1, false⟩⟩
        ⟨10, "ip", false, none, 1⟩
        ⟨20000, Except.ok (Parsed.obj ⟨some "ping", none, none, none⟩)⟩).st =
        ⟨[], [], [], [], ⟨[], [], [], [], 1, false⟩⟩ ∧
      (onRawMessage ⟨0, fun _ => none, fun _ => false⟩
        ⟨[], [], [], [], ⟨[], [], [], [], 1, false⟩⟩
        ⟨10, "ip", false, none, 1⟩
        ⟨20000, Except.ok (Parsed.obj ⟨some "ping", none, none, none⟩)⟩).selfEvents = [] ∧
      (onRawMessage ⟨0, fun _ => none, fun _ => false⟩
        ⟨[], [], [], [], ⟨[], [], [], [], 1, false⟩⟩
        ⟨10, "ip", false, none, 1⟩
        ⟨20000, Except.ok (Parsed.obj ⟨some "ping", none, none, none⟩)⟩).otherSends = [] ∧
      (onRawMessage ⟨0, fun _ => none, fun _ => false⟩
        ⟨[], [], [], [], ⟨[], [], [], [], 1, false⟩⟩
        ⟨10, "ip", false, none, 1⟩
        ⟨20000, Except.ok (Parsed.obj ⟨some "ping", none, none, none⟩)⟩).closedConns = [] ∧
      (onRawMessage ⟨0, fun _ => none, fun _ => false⟩
        ⟨[], [], [], [], ⟨[], [], [], [], 1, false⟩⟩
        ⟨10, "ip", false, none, 1⟩
        ⟨20000, Except.ok (Parsed.obj ⟨some "ping", none, none, none⟩)⟩).trace =
        [Step.sizeCheck] ∧
      Step.parseStep ∉ (onRawMessage ⟨0, fun _ => none, fun _ => false⟩
        ⟨[], [], [], [], ⟨[], [], [], [], 1, false⟩⟩
        ⟨10, "ip", false, none, 1⟩
        ⟨20000, Except.ok (Parsed.obj ⟨some "ping", none, none, none⟩)⟩).trace ∧
      Step.contentCheck ∉ (onRawMessage ⟨0, fun _ => none, fun _ => false⟩
        ⟨[], [], [], [], ⟨[], [], [], [], 1, false⟩⟩
        ⟨10, "ip", false, none, 1⟩
        ⟨20000, Except.ok (Parsed.obj ⟨some "ping", none, none, none⟩)⟩).trace ∧
      Step.persistStep ∉ (onRawMessage ⟨0, fun _ => none, fun _ => false⟩
        ⟨[], [], [], [], ⟨[], [], [], [], 1, false⟩⟩
        ⟨10, "ip", false, none, 1⟩
        ⟨20000, Except.ok (Parsed.obj ⟨some "ping", none, none, none⟩)⟩).trace ∧
      Step.deliverStep ∉ (onRawMessage ⟨0, fun _ => none, fun _ => false⟩
        ⟨[], [], [], [], ⟨[], [], [], [], 1, false⟩⟩
        ⟨10, "ip", false, none, 1⟩
        ⟨20000, Except.ok (Parsed.obj ⟨some "ping", none, none, none⟩)⟩).trace) :=
  ⟨by decide,
    c7_oversized_payload_closed_before_validation
      ⟨0, fun _ => none, fun _ => false⟩
      ⟨[], [], [], [], ⟨[], [], [], [], 1, false⟩⟩
      ⟨10, "ip", false, none, 1⟩
      ⟨20000, Except.ok (Parsed.obj ⟨some "ping", none, none, none⟩)⟩
      (by decide)⟩

/-! ## C9: pre-authentication messages are silently dropped -/

/-- C9: a `private_message`, `typing_start` or `typing_stop` frame that
passes the size, structure and rate gates but arrives on a connection that
has not authenticated is silently ignored: the `switch` guard skips the
handler, so no reply is sent, nothing reaches any other connection, no
store write happens, the registries are untouched and the connection stays
open. -/
theorem c9_unauthenticated_messages_silently_ignored
    (env : Env) (st : SState) (ws : Conn) (raw : RawData) (m : WireMsg)
    (t : String)
    (hsize : validateMessageSize raw.size = true)
    (hparse : raw.parse = Except.ok (Parsed.obj m))
    (hstruct : validateMessageStructure (Parsed.obj m) = true)
    (htype : m.type = some t)
    (ht : t = "private_message" ∨ t = "typing_start" ∨ t = "typing_stop")
    (hrate : (checkMessageRateLimit ws.ip t env.now st.messageRates).1 = true)
    (hauth : ws.isAuthenticated = false) :
    (onRawMessage env st ws raw).selfEvents = [] ∧
    (onRawMessage env st ws raw).otherSends = [] ∧
    (onRawMessage env st ws raw).selfClose = none ∧
    (onRawMessage env st ws raw).closedConns = [] ∧
    (onRawMessage env st ws raw).ws = ws ∧
    (onRawMessage env st ws raw).st.db = st.db ∧
    (onRawMessage env st ws raw).st.wsConnections = st.wsConnections ∧
    (onRawMessage env st ws raw).st.connections = st.connections ∧
    (onRawMessage env st ws raw).st.userConnCounts = st.userConnCounts := by
  have hgetD : m.type.getD "" = t := by rw [htype]; rfl
  rcases hpair : checkMessageRateLimit ws.ip t env.now st.messageRates
    with ⟨b, rates⟩
  have hb : b = true := by rw [hpair] at hrate; exact hrate
  subst hb
  have hdispatch :
      onRawMessage env st ws raw =
        { handleMessage env { st with messageRates := rates } ws m with
          trace := [Step.sizeCheck, Step.parseStep, Step.structureCheck,
            Step.rateCheck] ++
            (handleMessage env { st with messageRates := rates } ws m).trace } := by
    unfold onRawMessage
    rw [hsize, hparse]
    simp only [Bool.not_true, Bool.false_eq_true, if_false, hstruct, hgetD,
      hpair]
  have hnoop :
      handleMessage env { st with messageRates := rates } ws m =
        noopResult { st with messageRates := rates } ws := by
    unfold handleMessage
    rw [hgetD]
    rcases ht with h | h | h <;> subst h <;>
      simp [hauth]
  rw [hdispatch, hnoop]
  exact ⟨rfl, rfl, rfl, rfl, rfl, rfl, rfl, rfl, rfl⟩

/-- C9 (witness): a concrete unauthenticated connection sends a structurally
valid `private_message` with an empty rate window; the frame is dropped with
no observable effect. -/
theorem c9_unauthenticated_witness :
    (validateMessageSize 50 = true ∧
      validateMessageStructure
        (Parsed.obj ⟨some "private_message", some 2, some "hi", none⟩) = true ∧
      (checkMessageRateLimit "ip" "private_message" 0 []).1 = true ∧
      (⟨10, "ip", false, none, 1⟩ : Conn).isAuthenticated = false) ∧
    ((onRawMessage ⟨0, fun _ => none, fun _ => false⟩
        ⟨[], [], [], [], ⟨[], [], [], [], 1, false⟩⟩ ⟨10, "ip", false, none, 1⟩
        ⟨50, Except.ok (Parsed.obj ⟨some "private_message", some 2, some "hi",
          none⟩)⟩).selfEvents = [] ∧
      (onRawMessage ⟨0, fun _ => none, fun _ => false⟩
        ⟨[], [], [], [], ⟨[], [], [], [], 1, false⟩⟩ ⟨10, "ip", false, none, 1⟩
        ⟨50, Except.ok (Parsed.obj ⟨some "private_message", some 2, some "hi",
          none⟩)⟩).otherSends = [] ∧
      (onRawMessage ⟨0, fun _ => none, fun _ => false⟩
        ⟨[], [], [], [], ⟨[], [], [], [], 1, false⟩⟩ ⟨10, "ip", false, none, 1⟩
        ⟨50, Except.ok (Parsed.obj ⟨some "private_message", some 2, some "hi",
          none⟩)⟩).selfClose = none ∧
      (onRawMessage ⟨0, fun _ => none, fun _ => false⟩
        ⟨[], [], [], [], ⟨[], [], [], [], 1, false⟩⟩ ⟨10, "ip", false, none, 1⟩
        ⟨50, Except.ok (Parsed.obj ⟨some "private_message", some 2, some "hi",
          none⟩)⟩).closedConns = [] ∧
      (onRawMessage ⟨0, fun _ => none, fun _ => false⟩
        ⟨[], [], [], [], ⟨[], [], [], [], 1, false⟩⟩ ⟨10, "ip", false, none, 1⟩
        ⟨50, Except.ok (Parsed.obj ⟨some "private_message", some 2, some "hi",
          none⟩)⟩).ws = ⟨10, "ip", false, none, 1⟩ ∧
      (onRawMessage ⟨0, fun _ => none, fun _ => false⟩
        ⟨[], [], [], [], ⟨[], [], [], [], 1, false⟩⟩ ⟨10, "ip", false, none, 1⟩
        ⟨50, Except.ok (Parsed.obj ⟨some "private_message", some 2, some "hi",
          none⟩)⟩).st.db = ⟨[], [], [], [], 1, false⟩ ∧
      (onRawMessage ⟨0, fun _ => none, fun _ => false⟩
        ⟨[], [], [], [], ⟨[], [], [], [], 1, false⟩⟩ ⟨10, "ip", false, none, 1⟩
        ⟨50, Except.ok (Parsed.obj ⟨some "private_message", some 2, some "hi",
          none⟩)⟩).st.wsConnections = [] ∧
      (onRawMessage ⟨0, fun _ => none, fun _ => false⟩
        ⟨[], [], [], [], ⟨[], [], [], [], 1, false⟩⟩ ⟨10, "ip", false, none, 1⟩
        ⟨50, Except.ok (Parsed.obj ⟨some "private_message", some 2, some "hi",
          none⟩)⟩).st.connections = [] ∧
      (onRawMessage ⟨0, fun _ => none, fun _ => false⟩
        ⟨[], [], [], [], ⟨[], [], [], [], 1, false⟩⟩ ⟨10, "ip", false, none, 1⟩
        ⟨50, Except.ok (Parsed.obj ⟨some "private_message", some 2, some "hi",
          none⟩)⟩).st.userConnCounts = []) :=
  ⟨⟨by decide, by decide, by decide, rfl⟩,
    c9_unauthenticated_messages_silently_ignored
      ⟨0, fun _ => none, fun _ => false⟩
      ⟨[], [], [], [], ⟨[], [], [], [], 1, false⟩⟩ ⟨10, "ip", false, none, 1⟩
      ⟨50, Except.ok (Parsed.obj ⟨some "private_message", some 2, some "hi",
        none⟩)⟩
      ⟨some "private_message", some 2, some "hi", none⟩ "private_message"
      (by decide) rfl (by decide) rfl (Or.inl rfl) (by decide) rfl⟩

/-! ## C5: the per-user connection counter is never decremented -/

/-- C5: user 7 authenticates and disconnects three times in a row, so at the
fourth authentication attempt the user has zero open connections.  The code
still refuses the fourth attempt with `1008 Too many connections for this
user`, because `checkUserConnectionLimit` increments a counter that nothing
ever decrements: `setupCloseHandler` never calls
`security.removeUserConnection` (dead code), contradicting the specified
behaviour that closing a connection frees a slot under the ceiling of 3. -/
theorem c5_closed_connections_never_free_a_slot :
    (let env : Env :=
      ⟨0, fun tk => if tk = "tok" then some (7, "u", "access") else none,
        fun _ => false⟩
     let st0 : SState := ⟨[], [], [], [], ⟨[], [], [], [], 1, false⟩⟩
     let r1 := handleAuthentication env st0 ⟨1, "ip", false, none, 1⟩ (some "tok")
     let s1 := (handleClose env r1.st r1.ws).st
     let r2 := handleAuthentication env s1 ⟨2, "ip", false, none, 1⟩ (some "tok")
     let s2 := (handleClose env r2.st r2.ws).st
     let r3 := handleAuthentication env s2 ⟨3, "ip", false, none, 1⟩ (some "tok")
     let s3 := (handleClose env r3.st r3.ws).st
     let r4 := handleAuthentication env s3 ⟨4, "ip", false, none, 1⟩ (some "tok")
     mapGet 7 s3.wsConnections = none ∧ s3.connections = [] ∧
       mapGet 7 s3.userConnCounts = some 3 ∧
       r4.selfClose = some (1008, "Too many connections for this user") ∧
       r4.selfEvents = [] ∧ r4.closedConns = [] ∧ r4.st = s3) := by
  decide

end YM
